import Mathlib

/-!
Verification of the Mini Citadel portfolio engine
(src/Finance_Optimization_Snippet.py).

The Python module keeps a dictionary from ticker strings to mutable record
dictionaries.  We embed it shallowly:

* a record dictionary becomes the structure `Stock` (machine ints become `ℤ`,
  the floating-point rate fields become `ℚ`, an exact idealisation of the
  float arithmetic the code performs);
* the dictionary `portfolio_map` becomes an association list
  `List (String × Stock)` with Python dict semantics: lookup finds the first
  matching key, assignment to an existing key replaces that entry in place,
  assignment to a new key appends (preserving Python insertion order);
* each method of `PortfolioEngine`, `ThreadSafePortfolioEngine` and
  `DirectMemoryEngine` becomes a pure function from the engine state to the
  new engine state together with its return value.

A second model, `HeapEngine`, additionally embeds Python object identity
(the map stores heap addresses of record objects and updates mutate the heap
in place); it is used for the claims about snapshot versus live-reference
reads, which are invisible at the pure value level.
-/

/-- One record dictionary of `portfolio_map`.  Field names translate the
Korean dict keys of `add_stock`: ticker = 종목코드, name = 종목명,
quantity = 보유수량, buy_price = 매입가, current_price = 현재가,
change_rate = 등락률, profit_rate = 수익률, profit_loss = 평가손익. -/
structure Stock where
  ticker : String
  name : String
  quantity : ℤ
  buy_price : ℤ
  current_price : ℤ
  change_rate : ℚ
  profit_rate : ℚ
  profit_loss : ℤ
deriving Repr, DecidableEq

/-- State of `PortfolioEngine` (and of its subclass
`ThreadSafePortfolioEngine`, which adds no state): the dictionary
`self.portfolio_map`.  The lock only serialises access and has no effect on
the sequential semantics embedded here. -/
structure PortfolioEngine where
  portfolio_map : List (String × Stock)
deriving Repr, DecidableEq

/-- Python dict read `m.get(k)` / `m[k]`: first entry with the given key. -/
def dictGet {α : Type} : List (String × α) → String → Option α
  | [], _ => none
  | kv :: rest, k => if kv.1 = k then some kv.2 else dictGet rest k

/-- Python dict assignment `m[k] = v`: replaces the entry in place if the key
is present, otherwise appends at the end (Python insertion order). -/
def dictSet {α : Type} : List (String × α) → String → α → List (String × α)
  | [], k, v => [(k, v)]
  | kv :: rest, k, v => if kv.1 = k then (k, v) :: rest else kv :: dictSet rest k v

/-- In-place mutation of the record object stored under a present key
(`item = m[k]; item[...] = ...` mutates the dict entry): replaces the first
entry with the given key, leaves the list unchanged if the key is absent. -/
def replaceFirst {α : Type} : List (String × α) → String → α → List (String × α)
  | [], _, _ => []
  | kv :: rest, k, v => if kv.1 = k then (k, v) :: rest else kv :: replaceFirst rest k v

/-- The fresh engine of `PortfolioEngine.__init__`: empty dictionary. -/
def emptyEngine : PortfolioEngine := { portfolio_map := [] }

/-- `PortfolioEngine.add_stock` (lines 44-63): stores a fresh record with
current price 0, change rate 0.0, profit rate 0.0, profit/loss 0. -/
def add_stock (e : PortfolioEngine) (ticker name : String)
    (quantity buy_price : ℤ) : PortfolioEngine :=
  { portfolio_map :=
      dictSet e.portfolio_map ticker
        { ticker := ticker, name := name, quantity := quantity,
          buy_price := buy_price, current_price := 0, change_rate := 0,
          profit_rate := 0, profit_loss := 0 } }

/-- `PortfolioEngine.get_stock` (lines 65-90): `portfolio_map.get(ticker)`. -/
def get_stock (e : PortfolioEngine) (ticker : String) : Option Stock :=
  dictGet e.portfolio_map ticker

/-- The field mutations of `update_price` lines 112-122 on the looked-up
record object: always sets 현재가 and 등락률; only when 매입가 > 0 recomputes
수익률 and 평가손익.  The same eight lines appear verbatim in
`DirectMemoryEngine.update_and_notify` (lines 306-313) and in
`ThreadSafePortfolioEngine.batch_update_prices` (lines 363-369). -/
def applyPriceUpdate (item : Stock) (current_price : ℤ) (change_rate : ℚ) :
    Stock :=
  let item1 := { item with current_price := current_price,
                           change_rate := change_rate }
  if item1.buy_price > 0 then
    { item1 with
        profit_rate :=
          ((current_price : ℚ) / (item1.buy_price : ℚ) - 1) * 100,
        profit_loss := (current_price - item1.buy_price) * item1.quantity }
  else
    item1

/-- `PortfolioEngine.update_price` (lines 92-124): returns `False` leaving the
map untouched when the ticker is absent, otherwise mutates the record in
place and returns `True`. -/
def update_price (e : PortfolioEngine) (ticker : String)
    (current_price : ℤ) (change_rate : ℚ) : Bool × PortfolioEngine :=
  match dictGet e.portfolio_map ticker with
  | none => (false, e)
  | some item =>
      (true,
       { portfolio_map :=
           replaceFirst e.portfolio_map ticker
             (applyPriceUpdate item current_price change_rate) })

/-- `PortfolioEngine.get_all_stocks` (lines 126-136):
`list(portfolio_map.values())` in insertion order. -/
def get_all_stocks (e : PortfolioEngine) : List Stock :=
  e.portfolio_map.map (fun kv => kv.2)

/-- Return value of `get_portfolio_summary`: 총매입금액 = total_cost,
총평가금액 = total_value, 총평가손익 = total_profit, 총수익률 = total_return,
종목수 = count. -/
structure PortfolioSummary where
  total_cost : ℤ
  total_value : ℤ
  total_profit : ℤ
  total_return : ℚ
  count : ℕ
deriving Repr, DecidableEq

/-- `PortfolioEngine.get_portfolio_summary` (lines 138-171): one left-to-right
scan accumulating cost, value and profit per record, then the guarded return
percentage. -/
def get_portfolio_summary (e : PortfolioEngine) : PortfolioSummary :=
  let acc :=
    e.portfolio_map.foldl
      (fun (a : ℤ × ℤ × ℤ) kv =>
        let quantity := kv.2.quantity
        let buy_price := kv.2.buy_price
        let current_price := kv.2.current_price
        let cost := buy_price * quantity
        let value := current_price * quantity
        let profit := value - cost
        (a.1 + cost, a.2.1 + value, a.2.2 + profit))
      (0, 0, 0)
  { total_cost := acc.1, total_value := acc.2.1, total_profit := acc.2.2,
    total_return :=
      if acc.1 > 0 then ((acc.2.1 : ℚ) / (acc.1 : ℚ) - 1) * 100 else 0,
    count := e.portfolio_map.length }

/-- `ThreadSafePortfolioEngine.batch_update_prices` (lines 347-369): one loop
over the update tuples, applying to each present ticker exactly the mutation
lines of `update_price` and silently skipping absent tickers.  The subclass
adds no state, so it acts on the same `PortfolioEngine` state. -/
def batch_update_prices (e : PortfolioEngine)
    (updates : List (String × ℤ × ℚ)) : PortfolioEngine :=
  updates.foldl
    (fun e1 u =>
      match dictGet e1.portfolio_map u.1 with
      | none => e1
      | some item =>
          { portfolio_map :=
              replaceFirst e1.portfolio_map u.1
                (applyPriceUpdate item u.2.1 u.2.2) })
    e

/-!
Observer model.  A registered callback of `DirectMemoryEngine` is an
arbitrary Python callable taking no arguments; its call either returns
normally or raises an exception.  We embed a callback by its observable
behaviour when invoked: a numeric tag identifying it (so the invocation
trace can be stated) together with the exception it raises, if any
(`none` means it returns normally).  The callbacks in the source take no
reference to the engine, so invoking one does not act on the store.
-/

/-- Behaviour of one registered callback: identity tag plus the exception
raised by calling it, if any. -/
structure Callback where
  tag : ℕ
  exn : Option ℕ
deriving Repr, DecidableEq

/-- State of `DirectMemoryEngine`: the dictionary plus the callback list
`self.update_callbacks`. -/
structure DirectMemoryEngine where
  portfolio_map : List (String × Stock)
  update_callbacks : List Callback
deriving Repr, DecidableEq

/-- `DirectMemoryEngine.register_update_callback` (lines 282-291):
`update_callbacks.append(callback)`. -/
def register_update_callback (e : DirectMemoryEngine) (cb : Callback) :
    DirectMemoryEngine :=
  { e with update_callbacks := e.update_callbacks ++ [cb] }

/-- The notification loop of `update_and_notify` (lines 316-317):
`for callback in self.update_callbacks: callback()` with Python exception
semantics — each callback is invoked in order; the first raised exception
aborts the loop and propagates.  Returns the tags of the callbacks that were
invoked together with the propagated exception, if any. -/
def runCallbacks : List Callback → List ℕ × Option ℕ
  | [] => ([], none)
  | cb :: rest =>
    match cb.exn with
    | none =>
        let res := runCallbacks rest
        (cb.tag :: res.1, res.2)
    | some err => ([cb.tag], some err)

/-- `DirectMemoryEngine.update_and_notify` (lines 293-317): under the lock,
if the ticker is present, mutate the record exactly as `update_price` does
(lines 306-313 repeat lines 112-122); then, outside the lock, run every
callback.  Result: the engine after the store mutation, the invocation
trace, and the propagated exception if a callback raised. -/
def update_and_notify (e : DirectMemoryEngine) (ticker : String)
    (price : ℤ) (rate : ℚ) : DirectMemoryEngine × List ℕ × Option ℕ :=
  let e1 :=
    match dictGet e.portfolio_map ticker with
    | none => e
    | some item =>
        let item1 := applyPriceUpdate item price rate
        { e with portfolio_map := replaceFirst e.portfolio_map ticker item1 }
  (e1, runCallbacks e1.update_callbacks)

/-!
Heap model.  The value-level `PortfolioEngine` above is adequate for every
claim about stored field values, but it cannot express Python object
identity: `get_stock` returns the record dict itself, not a copy, and
`update_price` mutates that same dict object in place.  `HeapEngine` embeds
this: the map stores heap addresses, `add_stock` allocates a fresh record
object, `get_stock` returns the address (the live reference handed to the
caller), and `update_price` overwrites the heap cell at that address.  For
every state built through this API each address stored in the map points
into the heap, so the `getD` fallback record below is never read.
-/

/-- State of `PortfolioEngine` with object identity: the dictionary maps
tickers to heap addresses of record objects. -/
structure HeapEngine where
  portfolio_map : List (String × ℕ)
  heap : List Stock
deriving Repr, DecidableEq

/-- Fallback record for the out-of-bounds heap read that no API-built state
can perform. -/
def dummyStock : Stock :=
  { ticker := "", name := "", quantity := 0, buy_price := 0,
    current_price := 0, change_rate := 0, profit_rate := 0, profit_loss := 0 }

/-- The fresh engine: empty dictionary, empty heap. -/
def emptyHeapEngine : HeapEngine := { portfolio_map := [], heap := [] }

/-- Reading the record object a caller-held reference points to. -/
def deref (e : HeapEngine) (a : ℕ) : Option Stock := e.heap.get? a

/-- `add_stock` in the heap model: allocates a new record dict and stores a
reference to it under the ticker. -/
def heap_add_stock (e : HeapEngine) (ticker name : String)
    (quantity buy_price : ℤ) : HeapEngine :=
  { portfolio_map := dictSet e.portfolio_map ticker e.heap.length,
    heap := e.heap ++
      [{ ticker := ticker, name := name, quantity := quantity,
         buy_price := buy_price, current_price := 0, change_rate := 0,
         profit_rate := 0, profit_loss := 0 }] }

/-- `get_stock` in the heap model: lines 89-90 return
`portfolio_map.get(ticker)` — the record object itself, i.e. its address,
not a copy. -/
def heap_get_stock (e : HeapEngine) (ticker : String) : Option ℕ :=
  dictGet e.portfolio_map ticker

/-- `update_price` in the heap model: looks up the address and mutates the
record object at that address in place; the map itself is unchanged. -/
def heap_update_price (e : HeapEngine) (ticker : String)
    (current_price : ℤ) (change_rate : ℚ) : Bool × HeapEngine :=
  match dictGet e.portfolio_map ticker with
  | none => (false, e)
  | some a =>
      let item1 :=
        applyPriceUpdate (e.heap.getD a dummyStock) current_price change_rate
      (true, { e with heap := e.heap.set a item1 })

/-- `get_all_stocks` in the heap model: `list(portfolio_map.values())` is a
fresh list whose elements are the live record objects, i.e. their
addresses. -/
def heap_get_all_stocks (e : HeapEngine) : List ℕ :=
  e.portfolio_map.map (fun kv => kv.2)

/-!
Reachable engine states: every state obtainable from the fresh engine by the
mutating API (`add_stock`, `update_price`, `batch_update_prices`).
-/

/-- States of the store reachable through the public mutating API. -/
inductive Reachable : PortfolioEngine → Prop
  | empty : Reachable emptyEngine
  | insert (e : PortfolioEngine) (ticker name : String) (q bp : ℤ) :
      Reachable e → Reachable (add_stock e ticker name q bp)
  | update (e : PortfolioEngine) (ticker : String) (p : ℤ) (r : ℚ) :
      Reachable e → Reachable (update_price e ticker p r).2
  | batch (e : PortfolioEngine) (us : List (String × ℤ × ℚ)) :
      Reachable e → Reachable (batch_update_prices e us)

/-- Per-record consistency actually maintained by the engine: a record with
positive cost basis either satisfies the derived-field formulas for its own
current fields or is still at its post-insert defaults; a record with
non-positive cost basis keeps both derived fields at 0 forever. -/
def RecordConsistent (st : Stock) : Prop :=
  (st.buy_price ≤ 0 → st.profit_rate = 0 ∧ st.profit_loss = 0) ∧
  (0 < st.buy_price →
    (st.profit_rate = ((st.current_price : ℚ) / (st.buy_price : ℚ) - 1) * 100 ∧
     st.profit_loss = (st.current_price - st.buy_price) * st.quantity) ∨
    (st.current_price = 0 ∧ st.change_rate = 0 ∧
     st.profit_rate = 0 ∧ st.profit_loss = 0))

instance (st : Stock) : Decidable (RecordConsistent st) := by
  unfold RecordConsistent; infer_instance

/-! Dictionary lemmas. -/

theorem dictGet_dictSet_self {α : Type} (m : List (String × α)) (k : String)
    (v : α) : dictGet (dictSet m k v) k = some v := by
  induction m with
  | nil => simp [dictSet, dictGet]
  | cons kv rest ih =>
      by_cases hk : kv.1 = k
      · simp [dictSet, hk, dictGet]
      · simp [dictSet, hk, dictGet, ih]

theorem dictGet_dictSet_ne {α : Type} (m : List (String × α)) (k k' : String)
    (v : α) (h : k' ≠ k) : dictGet (dictSet m k v) k' = dictGet m k' := by
  induction m with
  | nil => simp [dictSet, dictGet, Ne.symm h]
  | cons kv rest ih =>
      by_cases hk : kv.1 = k
      · simp [dictSet, hk, dictGet, Ne.symm h]
      · simp [dictSet, hk, dictGet, ih]

theorem dictGet_replaceFirst_ne {α : Type} (m : List (String × α))
    (t k : String) (v : α) (h : k ≠ t) :
    dictGet (replaceFirst m t v) k = dictGet m k := by
  induction m with
  | nil => rfl
  | cons kv rest ih =>
      by_cases hk : kv.1 = t
      · simp [replaceFirst, hk, dictGet, Ne.symm h]
      · simp [replaceFirst, hk, dictGet, ih]

theorem dictGet_replaceFirst_self {α : Type} (m : List (String × α))
    (t : String) (v : α) :
    dictGet (replaceFirst m t v) t = (dictGet m t).map (fun _ => v) := by
  induction m with
  | nil => rfl
  | cons kv rest ih =>
      by_cases hk : kv.1 = t
      · simp [replaceFirst, hk, dictGet]
      · simp [replaceFirst, hk, dictGet, ih]

/-! Single-update lemmas. -/

/-- The record fields never touched by a price update. -/
def pricePreservedFields (st : Stock) : String × String × ℤ × ℤ :=
  (st.ticker, st.name, st.quantity, st.buy_price)

theorem applyPriceUpdate_preserves (st : Stock) (p : ℤ) (r : ℚ) :
    pricePreservedFields (applyPriceUpdate st p r) = pricePreservedFields st := by
  unfold applyPriceUpdate pricePreservedFields
  dsimp only
  split <;> rfl

theorem update_price_get_ne (e : PortfolioEngine) (t : String) (p : ℤ) (r : ℚ)
    (k : String) (h : k ≠ t) :
    get_stock (update_price e t p r).2 k = get_stock e k := by
  unfold update_price get_stock
  cases hm : dictGet e.portfolio_map t with
  | none => rfl
  | some item => simp [dictGet_replaceFirst_ne _ _ _ _ h]

theorem update_price_get_self (e : PortfolioEngine) (t : String) (p : ℤ)
    (r : ℚ) :
    get_stock (update_price e t p r).2 t =
      (dictGet e.portfolio_map t).map (fun item => applyPriceUpdate item p r) := by
  unfold update_price get_stock
  cases hm : dictGet e.portfolio_map t with
  | none => simp [hm]
  | some item => simp [dictGet_replaceFirst_self, hm]

theorem update_price_preserves_proj (e : PortfolioEngine) (t : String)
    (p : ℤ) (r : ℚ) (k : String) :
    (get_stock (update_price e t p r).2 k).map pricePreservedFields =
      (get_stock e k).map pricePreservedFields := by
  by_cases hk : k = t
  · subst hk
    rw [update_price_get_self]
    unfold get_stock
    cases dictGet e.portfolio_map k with
    | none => rfl
    | some item => simp [applyPriceUpdate_preserves]
  · rw [update_price_get_ne _ _ _ _ _ hk]

theorem update_price_isSome (e : PortfolioEngine) (t : String) (p : ℤ)
    (r : ℚ) (k : String) :
    (get_stock (update_price e t p r).2 k).isSome = (get_stock e k).isSome := by
  have h := update_price_preserves_proj e t p r k
  cases h1 : get_stock (update_price e t p r).2 k <;>
    cases h2 : get_stock e k <;> simp [h1, h2] at h ⊢

/-! Batch lemmas: the loop body of `batch_update_prices` is exactly the
store effect of one `update_price`. -/

theorem batch_cons (e : PortfolioEngine) (u : String × ℤ × ℚ)
    (rest : List (String × ℤ × ℚ)) :
    batch_update_prices e (u :: rest) =
      batch_update_prices (update_price e u.1 u.2.1 u.2.2).2 rest := by
  unfold batch_update_prices update_price
  cases hm : dictGet e.portfolio_map u.1 <;> simp [hm]

theorem batch_nil (e : PortfolioEngine) : batch_update_prices e [] = e := rfl

theorem batch_eq_foldl_update (e : PortfolioEngine)
    (us : List (String × ℤ × ℚ)) :
    batch_update_prices e us =
      us.foldl (fun e1 u => (update_price e1 u.1 u.2.1 u.2.2).2) e := by
  induction us generalizing e with
  | nil => rfl
  | cons u rest ih => rw [batch_cons, List.foldl_cons, ih]

theorem batch_get_not_named (e : PortfolioEngine)
    (us : List (String × ℤ × ℚ)) (k : String) (h : ∀ u ∈ us, u.1 ≠ k) :
    get_stock (batch_update_prices e us) k = get_stock e k := by
  induction us generalizing e with
  | nil => rfl
  | cons u rest ih =>
      rw [batch_cons, ih _ (fun v hv => h v (List.mem_cons_of_mem _ hv))]
      exact update_price_get_ne e u.1 u.2.1 u.2.2 k
        (Ne.symm (h u (List.mem_cons_self _ _)))

theorem batch_preserves_proj (e : PortfolioEngine)
    (us : List (String × ℤ × ℚ)) (k : String) :
    (get_stock (batch_update_prices e us) k).map pricePreservedFields =
      (get_stock e k).map pricePreservedFields := by
  induction us generalizing e with
  | nil => rfl
  | cons u rest ih =>
      rw [batch_cons, ih, update_price_preserves_proj]

theorem batch_isSome (e : PortfolioEngine) (us : List (String × ℤ × ℚ))
    (k : String) :
    (get_stock (batch_update_prices e us) k).isSome =
      (get_stock e k).isSome := by
  induction us generalizing e with
  | nil => rfl
  | cons u rest ih =>
      rw [batch_cons, ih, update_price_isSome]

/-! Consistency-invariant lemmas. -/

theorem recordConsistent_fresh (t n : String) (q bp : ℤ) :
    RecordConsistent
      { ticker := t, name := n, quantity := q, buy_price := bp,
        current_price := 0, change_rate := 0, profit_rate := 0,
        profit_loss := 0 } := by
  constructor
  · intro _; exact ⟨rfl, rfl⟩
  · intro _; exact Or.inr ⟨rfl, rfl, rfl, rfl⟩

theorem recordConsistent_apply (st : Stock) (p : ℤ) (r : ℚ)
    (h : RecordConsistent st) : RecordConsistent (applyPriceUpdate st p r) := by
  unfold applyPriceUpdate
  dsimp only
  by_cases hb : st.buy_price > 0
  · rw [if_pos hb]
    constructor
    · intro hle; exact absurd hb (not_lt.mpr hle)
    · intro _; exact Or.inl ⟨rfl, rfl⟩
  · rw [if_neg hb]
    have hle : st.buy_price ≤ 0 := not_lt.mp hb
    obtain ⟨hpr, hpl⟩ := h.1 hle
    constructor
    · intro _; exact ⟨hpr, hpl⟩
    · intro hpos; exact absurd hpos hb

/-- A store in which every stored record is consistent. -/
def StoreConsistent (e : PortfolioEngine) : Prop :=
  ∀ k st, get_stock e k = some st → RecordConsistent st

theorem storeConsistent_empty : StoreConsistent emptyEngine := by
  intro k st h
  simp [get_stock, emptyEngine, dictGet] at h

theorem storeConsistent_add (e : PortfolioEngine) (t n : String) (q bp : ℤ)
    (h : StoreConsistent e) : StoreConsistent (add_stock e t n q bp) := by
  intro k st hget
  unfold add_stock get_stock at hget
  by_cases hk : k = t
  · subst hk
    rw [dictGet_dictSet_self] at hget
    cases hget
    exact recordConsistent_fresh _ n q bp
  · rw [dictGet_dictSet_ne _ _ _ _ hk] at hget
    exact h k st hget

theorem storeConsistent_update (e : PortfolioEngine) (t : String) (p : ℤ)
    (r : ℚ) (h : StoreConsistent e) :
    StoreConsistent (update_price e t p r).2 := by
  intro k st hget
  by_cases hk : k = t
  · subst hk
    rw [update_price_get_self] at hget
    cases hm : dictGet e.portfolio_map k with
    | none => rw [hm] at hget; cases hget
    | some item =>
        rw [hm] at hget
        cases hget
        exact recordConsistent_apply item p r (h k item hm)
  · rw [update_price_get_ne _ _ _ _ _ hk] at hget
    exact h k st hget

theorem storeConsistent_batch (e : PortfolioEngine)
    (us : List (String × ℤ × ℚ)) (h : StoreConsistent e) :
    StoreConsistent (batch_update_prices e us) := by
  induction us generalizing e with
  | nil => exact h
  | cons u rest ih =>
      rw [batch_cons]
      exact ih _ (storeConsistent_update e u.1 u.2.1 u.2.2 h)

theorem reachable_storeConsistent (e : PortfolioEngine) (h : Reachable e) :
    StoreConsistent e := by
  induction h with
  | empty => exact storeConsistent_empty
  | insert e t n q bp _ ih => exact storeConsistent_add e t n q bp ih
  | update e t p r _ ih => exact storeConsistent_update e t p r ih
  | batch e us _ ih => exact storeConsistent_batch e us ih

/-! Callback-loop lemmas. -/

theorem runCallbacks_all_ok (l : List Callback)
    (h : ∀ cb ∈ l, cb.exn = none) :
    runCallbacks l = (l.map Callback.tag, none) := by
  induction l with
  | nil => rfl
  | cons cb rest ih =>
      have h1 : cb.exn = none := h cb (List.mem_cons_self _ _)
      have h2 := ih (fun c hc => h c (List.mem_cons_of_mem _ hc))
      simp [runCallbacks, h1, h2]

theorem runCallbacks_first_error (pre : List Callback) (c : Callback)
    (post : List Callback) (err : ℕ)
    (hpre : ∀ cb ∈ pre, cb.exn = none) (hc : c.exn = some err) :
    runCallbacks (pre ++ c :: post) =
      (pre.map Callback.tag ++ [c.tag], some err) := by
  induction pre with
  | nil => simp [runCallbacks, hc]
  | cons cb rest ih =>
      have h1 : cb.exn = none := hpre cb (List.mem_cons_self _ _)
      have h2 := ih (fun x hx => hpre x (List.mem_cons_of_mem _ hx))
      simp [runCallbacks, h1, h2]

/-! Aggregation lemma: closed form of the summary fold. -/

theorem summary_foldl_closed (l : List (String × Stock)) (a b c : ℤ) :
    l.foldl
      (fun (acc : ℤ × ℤ × ℤ) kv =>
        let quantity := kv.2.quantity
        let buy_price := kv.2.buy_price
        let current_price := kv.2.current_price
        let cost := buy_price * quantity
        let value := current_price * quantity
        let profit := value - cost
        (acc.1 + cost, acc.2.1 + value, acc.2.2 + profit))
      (a, b, c) =
      (a + (l.map (fun kv => kv.2.buy_price * kv.2.quantity)).sum,
       b + (l.map (fun kv => kv.2.current_price * kv.2.quantity)).sum,
       c + ((l.map (fun kv => kv.2.current_price * kv.2.quantity)).sum -
            (l.map (fun kv => kv.2.buy_price * kv.2.quantity)).sum)) := by
  induction l generalizing a b c with
  | nil => simp
  | cons kv rest ih =>
      simp only [List.foldl_cons, List.map_cons, List.sum_cons]
      rw [ih]
      refine Prod.ext ?_ (Prod.ext ?_ ?_) <;> dsimp only <;> ring

/-! Heap-model lemmas. -/

theorem getD_of_mem (l : List Stock) (n : ℕ) (d a : Stock)
    (h : l.get? n = some a) : l.getD n d = a := by
  have h2 : l[n]? = some a := by rw [← List.get?_eq_getElem?]; exact h
  simp [List.getD, h2]

theorem heap_update_price_deref (e : HeapEngine) (t : String) (a : ℕ)
    (st : Stock) (p : ℤ) (r : ℚ) (hget : heap_get_stock e t = some a)
    (hderef : deref e a = some st) :
    deref (heap_update_price e t p r).2 a = some (applyPriceUpdate st p r) := by
  unfold heap_get_stock at hget
  unfold heap_update_price
  simp only [hget]
  unfold deref at hderef ⊢
  dsimp only
  have hlt : a < e.heap.length := (List.get?_eq_some.mp hderef).1
  rw [getD_of_mem _ _ _ _ hderef, List.get?_eq_getElem?,
    List.getElem?_set_eq_of_lt _ hlt]

theorem heap_update_price_map (e : HeapEngine) (t : String) (p : ℤ) (r : ℚ) :
    (heap_update_price e t p r).2.portfolio_map = e.portfolio_map := by
  unfold heap_update_price
  cases hm : dictGet e.portfolio_map t <;> simp [hm]

/-! Claim theorems. -/

/-- C1: on a fresh store, insert with positive cost basis followed by update
returns true, and get then yields the given current price and change rate
with profit rate (currentPrice/costBasis - 1) * 100 and profit/loss
(currentPrice - costBasis) * quantity. -/
theorem insert_update_computes_derived_fields (id label : String)
    (q cb cp : ℤ) (cr : ℚ) (h : 0 < cb) :
    (update_price (add_stock emptyEngine id label q cb) id cp cr).1 = true ∧
    get_stock (update_price (add_stock emptyEngine id label q cb) id cp cr).2
        id =
      some { ticker := id, name := label, quantity := q, buy_price := cb,
             current_price := cp, change_rate := cr,
             profit_rate := ((cp : ℚ) / (cb : ℚ) - 1) * 100,
             profit_loss := (cp - cb) * q } := by
  have hmap :
      dictGet (add_stock emptyEngine id label q cb).portfolio_map id =
        some { ticker := id, name := label, quantity := q, buy_price := cb,
               current_price := 0, change_rate := 0, profit_rate := 0,
               profit_loss := 0 } := by
    unfold add_stock
    exact dictGet_dictSet_self _ _ _
  constructor
  · unfold update_price
    simp [hmap]
  · rw [update_price_get_self, hmap, Option.map_some']
    unfold applyPriceUpdate
    dsimp only
    rw [if_pos h]

/-- Witness for C1 at the spec example: inserting ("005930", "Sample", 100,
70000) then updating to (75000, 2.5) yields profit rate
(75000/70000 - 1) * 100 = 50/7 ≈ 7.142857 and profit/loss
(75000 - 70000) * 100 = 500000. -/
theorem insert_update_computes_derived_fields_witness :
    (0 : ℤ) < 70000 ∧
    ((update_price (add_stock emptyEngine "005930" "Sample" 100 70000)
        "005930" 75000 (5 / 2)).1 = true ∧
     get_stock (update_price (add_stock emptyEngine "005930" "Sample" 100
        70000) "005930" 75000 (5 / 2)).2 "005930" =
       some { ticker := "005930", name := "Sample", quantity := 100,
              buy_price := 70000, current_price := 75000,
              change_rate := 5 / 2,
              profit_rate := ((75000 : ℚ) / (70000 : ℚ) - 1) * 100,
              profit_loss := ((75000 : ℤ) - 70000) * 100 }) ∧
    ((75000 : ℚ) / (70000 : ℚ) - 1) * 100 = 50 / 7 ∧
    ((75000 : ℤ) - 70000) * 100 = 500000 :=
  ⟨by norm_num,
   insert_update_computes_derived_fields "005930" "Sample" 100 70000 75000
     (5 / 2) (by norm_num),
   by norm_num, by norm_num⟩

/-- C2 counterexample: insert with cost basis 0, then update with current
price 1 on quantity 1.  The claim demands profit/loss =
currentPrice * quantity = 1, but the code skips the whole derived-field
block when 매입가 = 0, so profit/loss stays 0. -/
theorem zero_cost_profit_loss_counterexample :
    get_stock (update_price (add_stock emptyEngine "000001" "ZeroCost" 1 0)
        "000001" 1 0).2 "000001" =
      some { ticker := "000001", name := "ZeroCost", quantity := 1,
             buy_price := 0, current_price := 1, change_rate := 0,
             profit_rate := 0, profit_loss := 0 } ∧
    (0 : ℤ) ≠ 1 * 1 := by
  decide

/-- C2 amended: after insert with cost basis 0 and any update, the update
returns true and get yields the new current price and change rate, but both
derived fields are left at their inserted value 0 — profit/loss is not
recomputed as currentPrice * quantity, because the recomputation of both
derived fields is guarded by 매입가 > 0. -/
theorem zero_cost_update_leaves_derived_fields (id label : String)
    (q cp : ℤ) (cr : ℚ) :
    (update_price (add_stock emptyEngine id label q 0) id cp cr).1 = true ∧
    get_stock (update_price (add_stock emptyEngine id label q 0) id cp cr).2
        id =
      some { ticker := id, name := label, quantity := q, buy_price := 0,
             current_price := cp, change_rate := cr,
             profit_rate := 0, profit_loss := 0 } := by
  have hmap :
      dictGet (add_stock emptyEngine id label q 0).portfolio_map id =
        some { ticker := id, name := label, quantity := q, buy_price := 0,
               current_price := 0, change_rate := 0, profit_rate := 0,
               profit_loss := 0 } := by
    unfold add_stock
    exact dictGet_dictSet_self _ _ _
  constructor
  · unfold update_price
    simp [hmap]
  · rw [update_price_get_self, hmap, Option.map_some']
    unfold applyPriceUpdate
    dsimp only
    rw [if_neg (by norm_num : ¬ ((0 : ℤ) > 0))]

/-- C3 counterexample: the reachable state insert("000002", quantity 1, cost
basis 0) then update(5, 0) holds a record whose profit/loss is 0 while the
section 4.2 formula (currentPrice - costBasis) * quantity gives 5. -/
theorem derived_consistency_counterexample :
    Reachable (update_price (add_stock emptyEngine "000002" "ZeroCost" 1 0)
      "000002" 5 0).2 ∧
    (get_stock (update_price (add_stock emptyEngine "000002" "ZeroCost" 1 0)
        "000002" 5 0).2 "000002").map
        (fun st => (st.profit_loss,
                    (st.current_price - st.buy_price) * st.quantity)) =
      some ((0 : ℤ), (5 : ℤ)) ∧
    (0 : ℤ) ≠ 5 :=
  ⟨Reachable.update _ _ _ _
     (Reachable.insert _ _ _ _ _ Reachable.empty),
   by decide, by decide⟩

/-- C3 amended: in every reachable store state, a record with positive cost
basis either satisfies the section 4.2 formulas for its own current fields
or is still at its post-insert defaults (current price, change rate and both
derived fields all 0); a record with cost basis ≤ 0 always has profit rate 0
and profit/loss 0 — its derived fields are never recomputed. -/
theorem reachable_records_consistent (e : PortfolioEngine)
    (h : Reachable e) (k : String) (st : Stock)
    (hget : get_stock e k = some st) : RecordConsistent st :=
  reachable_storeConsistent e h k st hget

/-- Witness for C3 amended at a freshly inserted record. -/
theorem reachable_records_consistent_witness :
    RecordConsistent
      { ticker := "000100", name := "Fresh", quantity := 2, buy_price := 5,
        current_price := 0, change_rate := 0, profit_rate := 0,
        profit_loss := 0 } :=
  reachable_records_consistent (add_stock emptyEngine "000100" "Fresh" 2 5)
    (Reachable.insert _ _ _ _ _ Reachable.empty) "000100"
    { ticker := "000100", name := "Fresh", quantity := 2, buy_price := 5,
      current_price := 0, change_rate := 0, profit_rate := 0,
      profit_loss := 0 }
    (by decide)

/-- The total cost stated by the spec (section 4.4): sum of
costBasis * quantity over all records. -/
def spec_total_cost (e : PortfolioEngine) : ℤ :=
  (e.portfolio_map.map (fun kv => kv.2.buy_price * kv.2.quantity)).sum

/-- The total value stated by the spec (section 4.4): sum of
currentPrice * quantity over all records. -/
def spec_total_value (e : PortfolioEngine) : ℤ :=
  (e.portfolio_map.map (fun kv => kv.2.current_price * kv.2.quantity)).sum

/-- C4: for every store, the summary totals are the sums of
costBasis * quantity and currentPrice * quantity over all records, the total
profit is their difference, the total return is the guarded percentage, and
the count is the number of records; on the empty store everything is 0 and
no division happens. -/
theorem summary_totals (e : PortfolioEngine) :
    get_portfolio_summary e =
      { total_cost := spec_total_cost e,
        total_value := spec_total_value e,
        total_profit := spec_total_value e - spec_total_cost e,
        total_return :=
          if spec_total_cost e > 0 then
            ((spec_total_value e : ℚ) / (spec_total_cost e : ℚ) - 1) * 100
          else 0,
        count := e.portfolio_map.length } ∧
    get_portfolio_summary emptyEngine =
      { total_cost := 0, total_value := 0, total_profit := 0,
        total_return := 0, count := 0 } := by
  constructor
  · unfold get_portfolio_summary spec_total_cost spec_total_value
    rw [summary_foldl_closed]
    simp only [zero_add]
  · rfl

/-- C5: batch update applies each entry exactly as a single update would,
silently skips entries with absent identifiers (the store function is total
and signals nothing), leaves every record not named by an entry unchanged,
and changes no key's presence. -/
theorem batch_update_semantics (e : PortfolioEngine)
    (updates : List (String × ℤ × ℚ)) :
    batch_update_prices e updates =
      updates.foldl (fun e1 u => (update_price e1 u.1 u.2.1 u.2.2).2) e ∧
    (∀ k, (∀ u ∈ updates, u.1 ≠ k) →
       get_stock (batch_update_prices e updates) k = get_stock e k) ∧
    (∀ k, (get_stock (batch_update_prices e updates) k).isSome =
       (get_stock e k).isSome) :=
  ⟨batch_eq_foldl_update e updates,
   fun k h => batch_get_not_named e updates k h,
   fun k => batch_isSome e updates k⟩

/-- Witness for C5: a batch of one present and one absent identifier leaves
an unnamed record untouched. -/
theorem batch_update_semantics_witness :
    get_stock
        (batch_update_prices (add_stock emptyEngine "035420" "Naver" 30
          200000) [("035420", 190000, -1), ("999999", 5, 0)]) "005930" =
      get_stock (add_stock emptyEngine "035420" "Naver" 30 200000) "005930" :=
  (batch_update_semantics (add_stock emptyEngine "035420" "Naver" 30 200000)
    [("035420", 190000, -1), ("999999", 5, 0)]).2.1 "005930" (by decide)

/-- C6: updating an identifier absent from the store returns false and
leaves the whole store unchanged. -/
theorem update_absent_false_unchanged (e : PortfolioEngine) (t : String)
    (p : ℤ) (r : ℚ) (h : get_stock e t = none) :
    update_price e t p r = (false, e) := by
  unfold get_stock at h
  unfold update_price
  simp [h]

/-- Witness for C6 on the empty store. -/
theorem update_absent_false_unchanged_witness :
    update_price emptyEngine "123456" 7 1 = (false, emptyEngine) :=
  update_absent_false_unchanged emptyEngine "123456" 7 1 (by decide)

/-- C8: a price update, single or batched, never changes a record's ticker,
name, quantity or cost basis, and records whose identifier is not targeted
are untouched entirely. -/
theorem price_updates_frame (e : PortfolioEngine) (t : String) (p : ℤ)
    (r : ℚ) (updates : List (String × ℤ × ℚ)) :
    (∀ k, (get_stock (update_price e t p r).2 k).map pricePreservedFields =
       (get_stock e k).map pricePreservedFields) ∧
    (∀ k, k ≠ t →
       get_stock (update_price e t p r).2 k = get_stock e k) ∧
    (∀ k, (get_stock (batch_update_prices e updates) k).map
         pricePreservedFields =
       (get_stock e k).map pricePreservedFields) ∧
    (∀ k, (∀ u ∈ updates, u.1 ≠ k) →
       get_stock (batch_update_prices e updates) k = get_stock e k) :=
  ⟨fun k => update_price_preserves_proj e t p r k,
   fun k hk => update_price_get_ne e t p r k hk,
   fun k => batch_preserves_proj e updates k,
   fun k hk => batch_get_not_named e updates k hk⟩

/-- Witness for C8: updating one ticker leaves a different record behind it
unchanged. -/
theorem price_updates_frame_witness :
    get_stock (update_price (add_stock emptyEngine "000660" "Hynix" 50
        120000) "005930" 75000 (5 / 2)).2 "000660" =
      get_stock (add_stock emptyEngine "000660" "Hynix" 50 120000) "000660" :=
  (price_updates_frame (add_stock emptyEngine "000660" "Hynix" 50 120000)
    "005930" 75000 (5 / 2) []).2.1 "000660" (by decide)

/-- C7 counterexample: in the object-identity model a caller that got the
record for "005930" before an update sees current price 75000 through that
same reference afterwards — get_stock hands out the live record object, not
an immutable snapshot, so a previously returned result does observe later
mutation. -/
theorem snapshot_reads_counterexample :
    heap_get_stock (heap_add_stock emptyHeapEngine "005930" "Sample" 100
        70000) "005930" = some 0 ∧
    (deref (heap_add_stock emptyHeapEngine "005930" "Sample" 100 70000)
        0).map Stock.current_price = some 0 ∧
    (deref (heap_update_price (heap_add_stock emptyHeapEngine "005930"
        "Sample" 100 70000) "005930" 75000 (5 / 2)).2 0).map
        Stock.current_price = some 75000 ∧
    some (0 : ℤ) ≠ some (75000 : ℤ) := by
  decide

/-- C7 amended: get and enumerate return references to the live record
objects, not copies: after a later update of the same identifier, a
previously obtained reference dereferences to the updated record (the map
and the address list returned by enumerate are unchanged, only the object
behind the reference was mutated in place). -/
theorem live_reference_reads (e : HeapEngine) (t : String) (a : ℕ)
    (st : Stock) (p : ℤ) (r : ℚ) (hget : heap_get_stock e t = some a)
    (hderef : deref e a = some st) :
    deref (heap_update_price e t p r).2 a =
      some (applyPriceUpdate st p r) ∧
    heap_get_all_stocks (heap_update_price e t p r).2 =
      heap_get_all_stocks e ∧
    heap_get_stock (heap_update_price e t p r).2 t = some a := by
  refine ⟨heap_update_price_deref e t a st p r hget hderef, ?_, ?_⟩
  · unfold heap_get_all_stocks
    rw [heap_update_price_map]
  · unfold heap_get_stock
    rw [heap_update_price_map]
    exact hget

/-- Witness for C7 amended: a concrete held reference observes the update to
121000. -/
theorem live_reference_reads_witness :
    deref (heap_update_price (heap_add_stock emptyHeapEngine "000660"
        "Hynix" 50 120000) "000660" 121000 1).2 0 =
      some (applyPriceUpdate
        { ticker := "000660", name := "Hynix", quantity := 50,
          buy_price := 120000, current_price := 0, change_rate := 0,
          profit_rate := 0, profit_loss := 0 } 121000 1) ∧
    heap_get_all_stocks (heap_update_price (heap_add_stock emptyHeapEngine
        "000660" "Hynix" 50 120000) "000660" 121000 1).2 =
      heap_get_all_stocks (heap_add_stock emptyHeapEngine "000660" "Hynix"
        50 120000) ∧
    heap_get_stock (heap_update_price (heap_add_stock emptyHeapEngine
        "000660" "Hynix" 50 120000) "000660" 121000 1).2 "000660" = some 0 :=
  live_reference_reads
    (heap_add_stock emptyHeapEngine "000660" "Hynix" 50 120000) "000660" 0
    { ticker := "000660", name := "Hynix", quantity := 50,
      buy_price := 120000, current_price := 0, change_rate := 0,
      profit_rate := 0, profit_loss := 0 }
    121000 1 (by decide) (by decide)

/-- C9 counterexample: with a first observer that raises 7 and a second that
would succeed, only the first is invoked and the error propagates to the
caller — per-observer containment is absent from the source loop. -/
theorem observer_isolation_counterexample :
    (update_and_notify
        { portfolio_map :=
            [("000001",
              { ticker := "000001", name := "A", quantity := 1,
                buy_price := 5, current_price := 0, change_rate := 0,
                profit_rate := 0, profit_loss := 0 })],
          update_callbacks :=
            [{ tag := 0, exn := some 7 }, { tag := 1, exn := none }] }
        "000001" 1 0).2 = ([0], some 7) ∧
    (1 : ℕ) ∈ ([{ tag := 0, exn := some 7 }, { tag := 1, exn := none }] :
        List Callback).map Callback.tag ∧
    (1 : ℕ) ∉ ([0] : List ℕ) ∧
    some (7 : ℕ) ≠ none := by
  decide

/-- C9 amended: an observer that raises aborts the notification loop: the
observers before it run, it runs, the ones after it are never invoked, and
its error propagates to the caller of update_and_notify; the store mutation
itself was already committed before notification and is exactly the one a
plain update_price performs, unaffected by the failure. -/
theorem observer_failure_aborts_notification (e : DirectMemoryEngine)
    (t : String) (p : ℤ) (r : ℚ) (pre post : List Callback) (c : Callback)
    (err : ℕ) (hsplit : e.update_callbacks = pre ++ c :: post)
    (hpre : ∀ cb ∈ pre, cb.exn = none) (hc : c.exn = some err) :
    (update_and_notify e t p r).2.1 = pre.map Callback.tag ++ [c.tag] ∧
    (update_and_notify e t p r).2.2 = some err ∧
    (update_and_notify e t p r).1.portfolio_map =
      (update_price { portfolio_map := e.portfolio_map } t p r).2.portfolio_map ∧
    (update_and_notify e t p r).1.update_callbacks = e.update_callbacks := by
  have hrun := runCallbacks_first_error pre c post err hpre hc
  unfold update_and_notify update_price
  cases hm : dictGet e.portfolio_map t <;>
    simp [hm, hsplit, hrun]

/-- Witness for C9 amended: observer 2 runs, observer 3 raises 5 and
propagates, observer 4 is never invoked; the record is still updated. -/
theorem observer_failure_aborts_notification_witness :
    (update_and_notify
        { portfolio_map :=
            [("000002",
              { ticker := "000002", name := "B", quantity := 2,
                buy_price := 10, current_price := 0, change_rate := 0,
                profit_rate := 0, profit_loss := 0 })],
          update_callbacks :=
            [{ tag := 2, exn := none }, { tag := 3, exn := some 5 },
             { tag := 4, exn := none }] }
        "000002" 11 1).2.1 =
      ([{ tag := 2, exn := none }] : List Callback).map Callback.tag ++
        [(3 : ℕ)] ∧
    (update_and_notify
        { portfolio_map :=
            [("000002",
              { ticker := "000002", name := "B", quantity := 2,
                buy_price := 10, current_price := 0, change_rate := 0,
                profit_rate := 0, profit_loss := 0 })],
          update_callbacks :=
            [{ tag := 2, exn := none }, { tag := 3, exn := some 5 },
             { tag := 4, exn := none }] }
        "000002" 11 1).2.2 = some 5 ∧
    (update_and_notify
        { portfolio_map :=
            [("000002",
              { ticker := "000002", name := "B", quantity := 2,
                buy_price := 10, current_price := 0, change_rate := 0,
                profit_rate := 0, profit_loss := 0 })],
          update_callbacks :=
            [{ tag := 2, exn := none }, { tag := 3, exn := some 5 },
             { tag := 4, exn := none }] }
        "000002" 11 1).1.portfolio_map =
      (update_price
        { portfolio_map :=
            [("000002",
              { ticker := "000002", name := "B", quantity := 2,
                buy_price := 10, current_price := 0, change_rate := 0,
                profit_rate := 0, profit_loss := 0 })] }
        "000002" 11 1).2.portfolio_map ∧
    (update_and_notify
        { portfolio_map :=
            [("000002",
              { ticker := "000002", name := "B", quantity := 2,
                buy_price := 10, current_price := 0, change_rate := 0,
                profit_rate := 0, profit_loss := 0 })],
          update_callbacks :=
            [{ tag := 2, exn := none }, { tag := 3, exn := some 5 },
             { tag := 4, exn := none }] }
        "000002" 11 1).1.update_callbacks =
      [{ tag := 2, exn := none }, { tag := 3, exn := some 5 },
       { tag := 4, exn := none }] :=
  observer_failure_aborts_notification
    { portfolio_map :=
        [("000002",
          { ticker := "000002", name := "B", quantity := 2,
            buy_price := 10, current_price := 0, change_rate := 0,
            profit_rate := 0, profit_loss := 0 })],
      update_callbacks :=
        [{ tag := 2, exn := none }, { tag := 3, exn := some 5 },
         { tag := 4, exn := none }] }
    "000002" 11 1
    [{ tag := 2, exn := none }] [{ tag := 4, exn := none }]
    { tag := 3, exn := some 5 } 5 (by decide) (by decide) (by decide)

/-- C10 counterexample: when the first registered callback raises, the
second registered callback is not invoked, so a call to update_and_notify
does not invoke every registered callback. -/
theorem notify_every_callback_counterexample :
    (update_and_notify
        { portfolio_map := [],
          update_callbacks :=
            [{ tag := 10, exn := some 3 }, { tag := 11, exn := none }] }
        "013570" 2 0).2.1 = [10] ∧
    (11 : ℕ) ∈ ([{ tag := 10, exn := some 3 }, { tag := 11, exn := none }] :
        List Callback).map Callback.tag ∧
    (11 : ℕ) ∉ ([10] : List ℕ) := by
  decide

/-- C10 amended: provided every registered callback returns normally,
update_and_notify invokes every registered callback in registration order
with no error reaching the caller, even when the ticker is absent and no
record was mutated (the store is then returned unchanged) — delivery is
unconditional on whether a mutation committed; registering a callback twice
makes it appear twice in the registry and therefore invokes it twice per
call.  A raising callback, however, aborts the loop (see the notification
failure theorems), so the proviso is necessary. -/
theorem notify_every_callback_normal (e : DirectMemoryEngine) (t : String)
    (p : ℤ) (r : ℚ) (h : ∀ cb ∈ e.update_callbacks, cb.exn = none) :
    (update_and_notify e t p r).2.1 = e.update_callbacks.map Callback.tag ∧
    (update_and_notify e t p r).2.2 = none ∧
    (dictGet e.portfolio_map t = none → (update_and_notify e t p r).1 = e) ∧
    (∀ cb0 : Callback,
       (register_update_callback (register_update_callback e cb0)
           cb0).update_callbacks = e.update_callbacks ++ [cb0, cb0]) ∧
    (∀ cb0 : Callback, cb0.exn = none →
       (update_and_notify (register_update_callback
           (register_update_callback e cb0) cb0) t p r).2.1 =
         e.update_callbacks.map Callback.tag ++ [cb0.tag, cb0.tag]) := by
  have hrun := runCallbacks_all_ok e.update_callbacks h
  refine ⟨?_, ?_, ?_, ?_, ?_⟩
  · unfold update_and_notify
    cases hm : dictGet e.portfolio_map t <;> simp [hm, hrun]
  · unfold update_and_notify
    cases hm : dictGet e.portfolio_map t <;> simp [hm, hrun]
  · intro hm
    unfold update_and_notify
    simp [hm]
  · intro cb0
    simp [register_update_callback]
  · intro cb0 hcb0
    have hall : ∀ cb ∈ e.update_callbacks ++ [cb0, cb0], cb.exn = none := by
      intro cb hcb
      rcases List.mem_append.mp hcb with hcb1 | hcb1
      · exact h cb hcb1
      · rcases List.mem_cons.mp hcb1 with rfl | hcb2
        · exact hcb0
        · rw [List.mem_singleton.mp hcb2]; exact hcb0
    have hrun2 := runCallbacks_all_ok _ hall
    unfold update_and_notify
    cases hm : dictGet (register_update_callback
        (register_update_callback e cb0) cb0).portfolio_map t <;>
      simp [hm, register_update_callback, hrun2]

/-- Witness for C10 amended: two well-behaved callbacks, one of them the
same callback registered twice, are all invoked on an absent ticker. -/
theorem notify_every_callback_normal_witness :
    (update_and_notify
        { portfolio_map := [],
          update_callbacks :=
            [{ tag := 20, exn := none }, { tag := 21, exn := none }] }
        "013570" 2 0).2.1 =
      ([{ tag := 20, exn := none }, { tag := 21, exn := none }] :
        List Callback).map Callback.tag ∧
    (update_and_notify
        { portfolio_map := [],
          update_callbacks :=
            [{ tag := 20, exn := none }, { tag := 21, exn := none }] }
        "013570" 2 0).2.2 = none ∧
    (dictGet
        ({ portfolio_map := [],
           update_callbacks :=
             [{ tag := 20, exn := none }, { tag := 21, exn := none }]
         } : DirectMemoryEngine).portfolio_map "013570" = none →
       (update_and_notify
          { portfolio_map := [],
            update_callbacks :=
              [{ tag := 20, exn := none }, { tag := 21, exn := none }] }
          "013570" 2 0).1 =
         { portfolio_map := [],
           update_callbacks :=
             [{ tag := 20, exn := none }, { tag := 21, exn := none }] }) ∧
    (∀ cb0 : Callback,
       (register_update_callback (register_update_callback
           { portfolio_map := [],
             update_callbacks :=
               [{ tag := 20, exn := none }, { tag := 21, exn := none }] }
           cb0) cb0).update_callbacks =
         [{ tag := 20, exn := none }, { tag := 21, exn := none }] ++
           [cb0, cb0]) ∧
    (∀ cb0 : Callback, cb0.exn = none →
       (update_and_notify (register_update_callback
           (register_update_callback
             { portfolio_map := [],
               update_callbacks :=
                 [{ tag := 20, exn := none }, { tag := 21, exn := none }] }
             cb0) cb0) "013570" 2 0).2.1 =
         ([{ tag := 20, exn := none }, { tag := 21, exn := none }] :
           List Callback).map Callback.tag ++ [cb0.tag, cb0.tag]) :=
  notify_every_callback_normal
    { portfolio_map := [],
      update_callbacks :=
        [{ tag := 20, exn := none }, { tag := 21, exn := none }] }
    "013570" 2 0 (by decide)
